import Mathlib

/-!
Shallow embedding of `src/coast_crawl.py` (the Coast crawler).

The crawler's mutable Mongo collections (`to_crawl`, `crawled_links`,
`pages`, `cannot_crawl`) become a `DBState` record of lists; each `DB`
method becomes a pure state transformer translated line by line from the
`DB` class.  The external collaborators — the network (`urllib3` inside
`get_html`), the HTML parser (`BeautifulSoup` inside `get_all_links`),
`urlparse(...).netloc` and the robots oracle `rp.can_fetch` — are
parameters gathered in an `Env`, fixed for the duration of one domain
crawl exactly as they are in the source (one `PoolManager`, one robots
parser per `crawl_domain` call).

The body of `crawl_domain`'s `while` loop (lines 203-233 of the source)
becomes `crawl_step`; `crawl_iter` runs `n` iterations.  Python's
`set(all_links)` iteration (line 218) is modelled by `pySet`, which
deduplicates keeping first occurrences: Python's set iteration order is
unspecified, and this is one fixed determinization of it.  The source's
`for url in set(all_links)` loop rebinds the variable `url`, so after the
loop `url` names the last iterated link (or still the dequeued URL when
the set was empty); the model reproduces this with `last_url`.
-/

namespace CoastCrawl

/-- URLs, hosts and HTML documents are strings, as in the Python source. -/
abbrev Url := String

/-- The four Mongo collections `crawl_domain` touches, as lists of documents
in insertion order (`insert_one` appends; `find()[0]` reads the head). -/
structure DBState where
  to_crawl : List Url
  crawled_links : List Url
  pages : List (Url × String)
  cannot_crawl : List (Url × String)
deriving DecidableEq

/-- A database with all four collections empty. -/
def emptyDB : DBState := ⟨[], [], [], []⟩

/-- `DB.add_url_to_crawl` (source line 68): `insert_one` appends a document
to the `to_crawl` collection, unconditionally. -/
def add_url_to_crawl (url : Url) (s : DBState) : DBState :=
  { s with to_crawl := s.to_crawl ++ [url] }

/-- `DB.add_url_to_crawled` (source line 71): appends to `crawled_links`. -/
def add_url_to_crawled (url : Url) (s : DBState) : DBState :=
  { s with crawled_links := s.crawled_links ++ [url] }

/-- `DB.remove_url_to_crawl` (source line 77): Mongo `remove({"url": url})`
deletes every document whose url matches. -/
def remove_url_to_crawl (url : Url) (s : DBState) : DBState :=
  { s with to_crawl := s.to_crawl.filter (fun x => x != url) }

/-- `DB.url_exists_in_to_crawl` (source line 90): membership in `to_crawl`. -/
def url_exists_in_to_crawl (url : Url) (s : DBState) : Bool :=
  decide (url ∈ s.to_crawl)

/-- `DB.url_exists_in_crawled` (source line 93): membership in `crawled_links`. -/
def url_exists_in_crawled (url : Url) (s : DBState) : Bool :=
  decide (url ∈ s.crawled_links)

/-- `DB.any_left_to_crawl` (source line 83): `to_crawl.count() != 0`. -/
def any_left_to_crawl (s : DBState) : Bool :=
  decide (s.to_crawl ≠ [])

/-- `DB.get_url_to_crawl` (source line 86): `find()[0]`, the first document
of `to_crawl` in insertion order. -/
def get_url_to_crawl (s : DBState) : Option Url :=
  s.to_crawl.head?

/-- `DB.add_page` (source line 100): appends `{"url": url, "html": html}`
to the `pages` collection. -/
def add_page (url : Url) (html : String) (s : DBState) : DBState :=
  { s with pages := s.pages ++ [(url, html)] }

/-- The external collaborators of one domain crawl, fixed for its duration:
`netloc u` is `urlparse(u).netloc`; `rawHtml u` is the string `get_html(u)`
returns during this crawl (the page body, or the in-band failure string
`get_html` produces on a failed fetch); `extract h` is the list of `href`
attributes BeautifulSoup + html5lib finds in document `h`, in document
order; `can_fetch u` is `rp.can_fetch("*", u)` for the robots parser
acquired at the start of `crawl_domain`. -/
structure Env where
  netloc : Url → String
  rawHtml : Url → String
  extract : String → List Url
  can_fetch : Url → Bool

/-- Helper for `pySet`: drop elements already seen, keep first occurrences. -/
def pySetAux (seen : List Url) : List Url → List Url
  | [] => []
  | u :: rest =>
    if u ∈ seen then pySetAux seen rest else u :: pySetAux (u :: seen) rest

/-- Python's `set(all_links)` as iterated on source line 218: deduplication
of the list.  Python's set iteration order is unspecified; the model fixes
first-occurrence order as one determinization of it. -/
def pySet (l : List Url) : List Url := pySetAux [] l

/-- `get_all_links(url, seed_domain)` (source lines 141-166): fetch the
document with `get_html`, collect every `href`, keep those whose
`urlparse(url).netloc` equals `seed_domain`, and also return the raw html. -/
def get_all_links (env : Env) (url seed_domain : Url) : List Url × String :=
  ((env.extract (env.rawHtml url)).filter (fun l => env.netloc l == seed_domain),
   env.rawHtml url)

/-- The deduplicated in-domain links of the page at `url0`, the list the
`for url in set(all_links)` loop of source line 218 iterates. -/
def links_of (env : Env) (host url0 : Url) : List Url :=
  pySet (get_all_links env url0 host).1

/-- The value of the Python variable `url` after the `for url in
set(all_links)` loop of source line 218: the last iterated element, or the
dequeued URL itself when the set was empty (the loop body never ran, so the
variable kept its previous value). -/
def last_url (env : Env) (host url0 : Url) : Url :=
  (links_of env host url0).getLast?.getD url0

/-- The body of the `for` loop at source lines 218-221: enqueue the link
only when it is in neither `to_crawl` nor `crawled_links`. -/
def try_enqueue (st : DBState) (u : Url) : DBState :=
  if !url_exists_in_to_crawl u st && !url_exists_in_crawled u st then
    add_url_to_crawl u st
  else st

/-- The whole `for` loop at source lines 218-221, over the deduplicated
link list. -/
def enqueue_new (links : List Url) (s : DBState) : DBState :=
  links.foldl try_enqueue s

/-- Source lines 216-226, the branch taken when `rp.can_fetch` allowed the
dequeued URL: extract and enqueue the new in-domain links, then — because
the `for` loop rebound `url` — test and mark `last_url` (not necessarily
the dequeued URL) as crawled and store the page under it. -/
def process_url (env : Env) (host : String) (url0 : Url) (s1 : DBState) : DBState :=
  if url_exists_in_crawled (last_url env host url0)
      (enqueue_new (links_of env host url0) s1) then
    enqueue_new (links_of env host url0) s1
  else
    add_page (last_url env host url0) (env.rawHtml url0)
      (add_url_to_crawled (last_url env host url0)
        (enqueue_new (links_of env host url0) s1))

/-- Source lines 228-230, the branch taken when `rp.can_fetch` denied the
dequeued URL: insert `{"url": url, "reason": "blocked by robots.txt"}` into
the `cannot_crawl` collection. -/
def block_url (url0 : Url) (s1 : DBState) : DBState :=
  { s1 with cannot_crawl := s1.cannot_crawl ++ [(url0, "blocked by robots.txt")] }

/-- One iteration of the `while` loop of `crawl_domain` (source lines
203-233): when the queue is empty the loop exits (the state is unchanged);
otherwise the head URL is dequeued, removed from `to_crawl`, and either
processed or blocked according to the robots oracle. -/
def crawl_step (env : Env) (host : String) (s : DBState) : DBState :=
  match s.to_crawl with
  | [] => s
  | url0 :: _ =>
    if env.can_fetch url0 then
      process_url env host url0 (remove_url_to_crawl url0 s)
    else
      block_url url0 (remove_url_to_crawl url0 s)

/-- The network fetches one iteration of the loop performs: `get_all_links`
(and with it `get_html`) is called exactly for a dequeued URL the robots
oracle allowed (source line 216); a blocked or absent URL is never fetched. -/
def crawl_step_fetches (env : Env) (s : DBState) : List Url :=
  match s.to_crawl with
  | [] => []
  | url0 :: _ => if env.can_fetch url0 then [url0] else []

/-- `n` iterations of the crawl loop. -/
def crawl_iter (env : Env) (host : String) : Nat → DBState → DBState
  | 0, s => s
  | n + 1, s => crawl_step env host (crawl_iter env host n s)

/-- Source line 197: `crawl_domain` seeds by calling `db.add_url_to_crawl`
on the domain's root URL, unconditionally (no existence check). -/
def seed_domain (domain : Url) (s : DBState) : DBState :=
  add_url_to_crawl domain s

/-- Outcome of the `urllib3` GET inside `get_html`: a response with its
integer status and the result of `r.data.decode("utf-8")` (which can itself
fail), or an exception raised during the request. -/
inductive FetchOutcome where
  | response (status : Nat) (body : Except String String)
  | exn (msg : String)

/-- `str(r.status).startswith("2")` of source line 131: the decimal
rendering of the status begins with the character string "2". -/
def status_starts_2 (status : Nat) : Bool :=
  "2".data.isPrefixOf (Nat.repr status).data

/-- `get_html` (source lines 106-138): on a status whose decimal rendering
starts with "2", the decoded body; on any other status, the in-band string
`"Failed to get html, status: " + str(r.status)`; on any exception raised
inside the `try` (the request itself, or the utf-8 decode), the in-band
string `"-1: " + str(e)`.  Total: every outcome yields a string. -/
def get_html : FetchOutcome → String
  | .exn e => "-1: " ++ e
  | .response status body =>
    if status_starts_2 status then
      match body with
      | .ok html => html
      | .error e => "-1: " ++ e
    else
      "Failed to get html, status: " ++ Nat.repr status

/-- Outcome of `urllib.request.urlopen` on the robots.txt URL inside the
standard library's `RobotFileParser.read`, as called by
`get_robots_for_url` (source lines 169-186): a successful fetch whose
parsed rules answer `can_fetch("*", u)` as `allow u`; an HTTPError with its
status code; or any other exception (URLError, timeout, decode failure). -/
inductive RobotsFetch where
  | ok (allow : Url → Bool)
  | httpError (code : Nat)
  | exn (msg : String)

/-- `get_robots_for_url` (source lines 169-186) composed with the Python
standard library semantics of `RobotFileParser.read` and `can_fetch`:
a non-HTTP exception propagates out of `rp.read()` — and hence out of
`get_robots_for_url` and `crawl_domain`, which have no handler — modelled
as `Except.error`; an HTTPError 401 or 403 sets `disallow_all`, so the
oracle denies every URL; any other 4xx sets `allow_all`, so the oracle
allows every URL; on any remaining status no rules are parsed and
`last_checked` stays unset, so `can_fetch` answers `False` for every URL;
a successful fetch yields the parsed rules. -/
def get_robots_for_url : RobotsFetch → Except String (Url → Bool)
  | .exn msg => .error msg
  | .httpError c =>
    if c = 401 ∨ c = 403 then .ok (fun _ => false)
    else if 400 ≤ c ∧ c < 500 then .ok (fun _ => true)
    else .ok (fun _ => false)
  | .ok allow => .ok allow

/-- What the acquired oracle answers for a URL: `some` of its verdict, or
`none` when acquiring the oracle raised (so there is no oracle at all). -/
def oracle_allows (r : Except String (Url → Bool)) (u : Url) : Option Bool :=
  match r with
  | .ok f => some (f u)
  | .error _ => none

/-- Whether acquiring the oracle raised an exception that propagates out of
`crawl_domain`. -/
def robots_is_error (r : Except String (Url → Bool)) : Bool :=
  match r with
  | .error _ => true
  | .ok _ => false

/-- The prefix of `crawl_domain` before the loop (source lines 196-199):
seed the queue with the domain's root, then acquire the robots parser; the
seeding has already happened when a robots exception propagates. -/
def crawl_domain_setup (robots : RobotsFetch) (domain : Url) (s : DBState) :
    DBState × Except String (Url → Bool) :=
  (seed_domain domain s, get_robots_for_url robots)

/-! ## General lemmas about the loop body -/

theorem mem_pySetAux {x : Url} : ∀ {l seen : List Url}, x ∈ pySetAux seen l → x ∈ l := by
  intro l
  induction l with
  | nil => intro seen h; simp [pySetAux] at h
  | cons u rest ih =>
    intro seen h
    simp only [pySetAux] at h
    split at h
    · exact List.mem_cons_of_mem _ (ih h)
    · rcases List.mem_cons.1 h with h' | h'
      · exact h' ▸ List.mem_cons_self _ _
      · exact List.mem_cons_of_mem _ (ih h')

theorem mem_pySet {x : Url} {l : List Url} (h : x ∈ pySet l) : x ∈ l :=
  mem_pySetAux h

theorem try_enqueue_crawled (st : DBState) (u : Url) :
    (try_enqueue st u).crawled_links = st.crawled_links := by
  unfold try_enqueue
  split <;> rfl

theorem try_enqueue_pages (st : DBState) (u : Url) :
    (try_enqueue st u).pages = st.pages := by
  unfold try_enqueue
  split <;> rfl

theorem try_enqueue_cannot (st : DBState) (u : Url) :
    (try_enqueue st u).cannot_crawl = st.cannot_crawl := by
  unfold try_enqueue
  split <;> rfl

theorem enqueue_new_crawled (links : List Url) :
    ∀ s : DBState, (enqueue_new links s).crawled_links = s.crawled_links := by
  induction links with
  | nil => intro s; rfl
  | cons l ls ih =>
    intro s
    show (enqueue_new ls (try_enqueue s l)).crawled_links = s.crawled_links
    rw [ih, try_enqueue_crawled]

theorem enqueue_new_pages (links : List Url) :
    ∀ s : DBState, (enqueue_new links s).pages = s.pages := by
  induction links with
  | nil => intro s; rfl
  | cons l ls ih =>
    intro s
    show (enqueue_new ls (try_enqueue s l)).pages = s.pages
    rw [ih, try_enqueue_pages]

theorem try_enqueue_to_crawl_mem {st : DBState} {u x : Url}
    (h : x ∈ (try_enqueue st u).to_crawl) : x ∈ st.to_crawl ∨ x = u := by
  unfold try_enqueue at h
  split at h
  · rcases List.mem_append.1 h with h' | h'
    · exact Or.inl h'
    · exact Or.inr (List.mem_singleton.1 h')
  · exact Or.inl h

theorem enqueue_new_to_crawl_mem (links : List Url) :
    ∀ {s : DBState} {x : Url}, x ∈ (enqueue_new links s).to_crawl →
      x ∈ s.to_crawl ∨ x ∈ links := by
  induction links with
  | nil => intro s x h; exact Or.inl h
  | cons l ls ih =>
    intro s x h
    have h' : x ∈ (enqueue_new ls (try_enqueue s l)).to_crawl := h
    rcases ih h' with h'' | h''
    · rcases try_enqueue_to_crawl_mem h'' with h3 | h3
      · exact Or.inl h3
      · exact Or.inr (h3 ▸ List.mem_cons_self _ _)
    · exact Or.inr (List.mem_cons_of_mem _ h'')

theorem try_enqueue_nodup {st : DBState} (h : st.to_crawl.Nodup) (u : Url) :
    (try_enqueue st u).to_crawl.Nodup := by
  unfold try_enqueue
  split
  · rename_i hc
    have hu : u ∉ st.to_crawl := by
      simp only [Bool.and_eq_true, Bool.not_eq_true', url_exists_in_to_crawl,
        decide_eq_false_iff_not] at hc
      exact hc.1
    simpa [add_url_to_crawl, List.nodup_append] using ⟨h, hu⟩
  · exact h

theorem enqueue_new_nodup (links : List Url) :
    ∀ {s : DBState}, s.to_crawl.Nodup → (enqueue_new links s).to_crawl.Nodup := by
  induction links with
  | nil => intro s h; exact h
  | cons l ls ih =>
    intro s h
    exact ih (try_enqueue_nodup h l)

theorem try_enqueue_keeps_out {st : DBState} {u : Url}
    (hc : u ∈ st.crawled_links) (hp : u ∉ st.to_crawl) (l : Url) :
    u ∉ (try_enqueue st l).to_crawl := by
  intro hmem
  rcases try_enqueue_to_crawl_mem hmem with h | h
  · exact hp h
  · subst h
    unfold try_enqueue at hmem
    split at hmem
    · rename_i hcond
      simp only [Bool.and_eq_true, Bool.not_eq_true', url_exists_in_crawled,
        decide_eq_false_iff_not] at hcond
      exact hcond.2 hc
    · exact hp hmem

theorem enqueue_new_keeps_out (links : List Url) :
    ∀ {s : DBState} {u : Url}, u ∈ s.crawled_links → u ∉ s.to_crawl →
      u ∉ (enqueue_new links s).to_crawl := by
  induction links with
  | nil => intro s u _ hp; exact hp
  | cons l ls ih =>
    intro s u hc hp
    have hc' : u ∈ (try_enqueue s l).crawled_links := by
      rw [try_enqueue_crawled]; exact hc
    exact ih hc' (try_enqueue_keeps_out hc hp l)

theorem crawl_step_eq_nil {env : Env} {host : String} {s : DBState}
    (h : s.to_crawl = []) : crawl_step env host s = s := by
  rcases s with ⟨tc, cl, pg, cc⟩
  change tc = [] at h
  subst h
  rfl

theorem crawl_step_eq_cons {env : Env} {host : String} {s : DBState} {u : Url}
    {rest : List Url} (h : s.to_crawl = u :: rest) :
    crawl_step env host s =
      if env.can_fetch u then process_url env host u (remove_url_to_crawl u s)
      else block_url u (remove_url_to_crawl u s) := by
  rcases s with ⟨tc, cl, pg, cc⟩
  change tc = u :: rest at h
  subst h
  rfl

theorem crawl_step_fetches_eq_cons {env : Env} {s : DBState} {u : Url}
    {rest : List Url} (h : s.to_crawl = u :: rest) :
    crawl_step_fetches env s = if env.can_fetch u then [u] else [] := by
  rcases s with ⟨tc, cl, pg, cc⟩
  change tc = u :: rest at h
  subst h
  rfl

theorem process_url_to_crawl (env : Env) (host : String) (url0 : Url) (s1 : DBState) :
    (process_url env host url0 s1).to_crawl =
      (enqueue_new (links_of env host url0) s1).to_crawl := by
  unfold process_url
  split <;> rfl

theorem crawl_iter_add (env : Env) (host : String) (a b : Nat) (s : DBState) :
    crawl_iter env host (a + b) s = crawl_iter env host a (crawl_iter env host b s) := by
  induction a with
  | zero => simp [crawl_iter, Nat.zero_add]
  | succ a ih =>
    have h : a + 1 + b = (a + b) + 1 := by omega
    rw [h]
    show crawl_step env host (crawl_iter env host (a + b) s) = _
    rw [ih]
    rfl

/-! ## C1: pending/visited disjointness -/

/-- Environment for C1: a one-page site at host `example.test` whose root
page links to itself. -/
def env1 : Env :=
  { netloc := fun u => if u = "https://example.test/" then "example.test" else ""
    rawHtml := fun _ => "SELF"
    extract := fun h => if h = "SELF" then ["https://example.test/"] else []
    can_fetch := fun _ => true }

/-- C1 counterexample: the claim that the pending queue and the visited set
are disjoint at every instant is false.  Crawling the seeded self-linking
root enqueues the root again (it is in neither set at enqueue time) and
then marks it visited, so immediately after the first iteration the root is
simultaneously pending and visited. -/
theorem C1_counterexample :
    "https://example.test/" ∈
      (crawl_step env1 "example.test"
        (seed_domain "https://example.test/" emptyDB)).to_crawl ∧
    "https://example.test/" ∈
      (crawl_step env1 "example.test"
        (seed_domain "https://example.test/" emptyDB)).crawled_links := by
  decide

/-- C1 amended: enqueueing is guarded — a link is inserted only when it is
in neither the pending queue nor the visited set — so one crawl iteration
preserves duplicate-freedom of the pending queue (no URL is enqueued twice
while pending), and a URL that is visited and not pending can never become
pending; but a URL that is pending can become visited (the counterexample),
so the two sets are not disjoint at every instant. -/
theorem C1_amended (env : Env) (host : String) (s : DBState) (u : Url)
    (hnodup : s.to_crawl.Nodup) (hc : u ∈ s.crawled_links) (hp : u ∉ s.to_crawl) :
    (crawl_step env host s).to_crawl.Nodup ∧ u ∉ (crawl_step env host s).to_crawl := by
  cases htc : s.to_crawl with
  | nil =>
    rw [crawl_step_eq_nil htc]
    exact ⟨hnodup, hp⟩
  | cons u0 rest =>
    rw [crawl_step_eq_cons htc]
    have hrm_nodup : (remove_url_to_crawl u0 s).to_crawl.Nodup :=
      List.Nodup.filter _ hnodup
    have hrm_out : u ∉ (remove_url_to_crawl u0 s).to_crawl := by
      intro hmem
      exact hp (List.mem_of_mem_filter hmem)
    have hrm_c : u ∈ (remove_url_to_crawl u0 s).crawled_links := hc
    by_cases hcf : env.can_fetch u0
    · rw [if_pos hcf]
      constructor
      · rw [process_url_to_crawl]
        exact enqueue_new_nodup _ hrm_nodup
      · rw [process_url_to_crawl]
        exact enqueue_new_keeps_out _ hrm_c hrm_out
    · rw [if_neg hcf]
      exact ⟨hrm_nodup, hrm_out⟩

/-- C1 amended, witnessed at a concrete input: the visited URL `"x"` never
becomes pending, and the queue stays duplicate-free. -/
theorem C1_amended_witness :
    (crawl_step env1 "example.test" (DBState.mk [] ["x"] [] [])).to_crawl.Nodup ∧
    "x" ∉ (crawl_step env1 "example.test" (DBState.mk [] ["x"] [] [])).to_crawl :=
  C1_amended env1 "example.test" (DBState.mk [] ["x"] [] []) "x"
    (by simp) (by simp) (by simp)

/-! ## C2: which URL gets recorded as visited -/

/-- Environment for C2: the root page of `example.test` contains exactly one
in-domain link, to `/a`. -/
def env2 : Env :=
  { netloc := fun u =>
      if u = "https://example.test/" ∨ u = "https://example.test/a" then "example.test"
      else ""
    rawHtml := fun u => if u = "https://example.test/" then "ROOT" else "PA"
    extract := fun h => if h = "ROOT" then ["https://example.test/a"] else []
    can_fetch := fun _ => true }

/-- C2, the code evaluated at the failing input: the dequeued URL is the
root, its fetch succeeded and its links were extracted, and the root is not
yet visited — yet the URL recorded as visited is the link `/a` (the last
value of the rebound loop variable `url`), and the root's html `"ROOT"` is
stored as the Page record of `/a`.  The dequeued root itself is never
marked visited. -/
theorem C2_code_bug_eval :
    (crawl_step env2 "example.test"
      (seed_domain "https://example.test/" emptyDB)).crawled_links
      = ["https://example.test/a"] ∧
    (crawl_step env2 "example.test"
      (seed_domain "https://example.test/" emptyDB)).pages
      = [("https://example.test/a", "ROOT")] ∧
    ((crawl_step env2 "example.test"
      (seed_domain "https://example.test/" emptyDB)).crawled_links.contains
        "https://example.test/") = false := by
  decide

/-! ## C3: termination -/

def S3 : Url := "https://example.test/"

def Z3 : Url := "https://example.test/z"

def A3 : Url := "https://example.test/a"

def B3 : Url := "https://example.test/b"

/-- Environment for C3: a finite four-page site on host `example.test`.
The root links to `/z`; `/z` links to `/a` then `/z`; `/a` links to `/b`
then `/z`; `/b` links to `/a` then `/z`.  All pages are allowed. -/
def env3 : Env :=
  { netloc := fun u => if u = S3 ∨ u = Z3 ∨ u = A3 ∨ u = B3 then "example.test" else ""
    rawHtml := fun u => if u = S3 then "HS" else if u = Z3 then "HZ"
      else if u = A3 then "HA" else if u = B3 then "HB" else ""
    extract := fun h => if h = "HS" then [Z3] else if h = "HZ" then [A3, Z3]
      else if h = "HA" then [B3, Z3] else if h = "HB" then [A3, Z3] else []
    can_fetch := fun _ => true }

/-- The crawl state after two iterations from the seeded root of `env3`. -/
def sigma2 : DBState := ⟨[A3], [Z3], [(Z3, "HS")], []⟩

/-- The crawl state after three iterations from the seeded root of `env3`. -/
def sigma3 : DBState := ⟨[B3], [Z3], [(Z3, "HS")], []⟩

theorem c3_two_steps :
    crawl_iter env3 "example.test" 2 (seed_domain S3 emptyDB) = sigma2 := by
  decide

theorem c3_step_sigma2 : crawl_step env3 "example.test" sigma2 = sigma3 := by
  decide

theorem c3_step_sigma3 : crawl_step env3 "example.test" sigma3 = sigma2 := by
  decide

theorem c3_cycle (m : Nat) :
    crawl_iter env3 "example.test" m sigma2 = sigma2 ∨
    crawl_iter env3 "example.test" m sigma2 = sigma3 := by
  induction m with
  | zero => exact Or.inl rfl
  | succ m ih =>
    show crawl_step env3 "example.test" (crawl_iter env3 "example.test" m sigma2) = sigma2 ∨
      crawl_step env3 "example.test" (crawl_iter env3 "example.test" m sigma2) = sigma3
    rcases ih with h | h
    · rw [h, c3_step_sigma2]
      exact Or.inr rfl
    · rw [h, c3_step_sigma3]
      exact Or.inl rfl

/-- C3, the code evaluated at the failing input: on the finite link graph of
`env3` the pending queue is non-empty after every number of iterations, so
the `while` loop of `crawl_domain` never observes an empty queue and never
terminates — after the second iteration the crawl alternates between
re-fetching `/a` and `/b` forever, because the rebound loop variable marks
the already-visited `/z` instead of the dequeued URL, so neither `/a` nor
`/b` ever enters the visited set. -/
theorem C3_code_bug_eval (n : Nat) :
    1 ≤ (crawl_iter env3 "example.test" n (seed_domain S3 emptyDB)).to_crawl.length := by
  match n with
  | 0 => decide
  | 1 => decide
  | m + 2 =>
    rw [crawl_iter_add env3 "example.test" m 2 (seed_domain S3 emptyDB), c3_two_steps]
    rcases c3_cycle m with h | h <;> rw [h] <;> decide

/-! ## C4: fetch failure handling -/

/-- Environment for C4: fetching `/a` times out, so `get_html` returns the
in-band failure string, in which BeautifulSoup finds no `<a>` tags. -/
def env4 : Env :=
  { netloc := fun u => if u = "https://example.test/a" then "example.test" else ""
    rawHtml := fun _ => "-1: Read timed out."
    extract := fun _ => []
    can_fetch := fun _ => true }

/-- C4 counterexample: after the fetch of `/a` times out, `/a` is marked
visited (as the claim says) but, contrary to the claim, a Page record IS
stored for it — `get_html` returns the failure message as an ordinary
string and `crawl_domain` stores whatever html it received, so `pages`
holds `/a` with the failure string as its html. -/
theorem C4_counterexample :
    "https://example.test/a" ∈
      (crawl_step env4 "example.test"
        (DBState.mk ["https://example.test/a"] [] [] [])).crawled_links ∧
    (crawl_step env4 "example.test"
      (DBState.mk ["https://example.test/a"] [] [] [])).pages
      = [("https://example.test/a", "-1: Read timed out.")] := by
  decide

/-- C4 amended: when the dequeued URL's fetch fails (so `get_html` returned
an in-band failure string in which no links are found) and the URL is not
yet visited, the URL is marked visited, a Page record IS stored for it
whose html is that failure string, and the loop continues with the rest of
the queue. -/
theorem C4_amended (env : Env) (host : String) (s : DBState) (u : Url) (rest : List Url)
    (h1 : s.to_crawl = u :: rest) (h2 : env.can_fetch u = true)
    (h3 : env.extract (env.rawHtml u) = []) (h4 : u ∉ s.crawled_links) :
    u ∈ (crawl_step env host s).crawled_links ∧
    (u, env.rawHtml u) ∈ (crawl_step env host s).pages ∧
    (crawl_step env host s).to_crawl = s.to_crawl.filter (fun x => x != u) := by
  have hlinks : links_of env host u = [] := by
    simp [links_of, get_all_links, h3, pySet, pySetAux]
  have hlast : last_url env host u = u := by
    simp [last_url, hlinks]
  have hproc : process_url env host u (remove_url_to_crawl u s) =
      add_page u (env.rawHtml u) (add_url_to_crawled u (remove_url_to_crawl u s)) := by
    unfold process_url
    rw [hlinks, hlast]
    have hs1 : enqueue_new [] (remove_url_to_crawl u s) = remove_url_to_crawl u s := rfl
    rw [hs1]
    have hex : url_exists_in_crawled u (remove_url_to_crawl u s) = false := by
      have hcr : (remove_url_to_crawl u s).crawled_links = s.crawled_links := rfl
      simp [url_exists_in_crawled, hcr, h4]
    rw [hex]
    simp
  rw [crawl_step_eq_cons h1, h2, if_pos rfl, hproc]
  refine ⟨?_, ?_, ?_⟩
  · show u ∈ s.crawled_links ++ [u]
    simp
  · show (u, env.rawHtml u) ∈ s.pages ++ [(u, env.rawHtml u)]
    simp
  · rfl

/-- C4 amended, witnessed at the timeout scenario from the spec: `/a` is in
the visited set and in `pages` with the failure string as html. -/
theorem C4_amended_witness :
    "https://example.test/a" ∈
      (crawl_step env4 "example.test"
        (DBState.mk ["https://example.test/a"] [] [] [])).crawled_links ∧
    ("https://example.test/a",
        env4.rawHtml "https://example.test/a") ∈
      (crawl_step env4 "example.test"
        (DBState.mk ["https://example.test/a"] [] [] [])).pages ∧
    (crawl_step env4 "example.test"
      (DBState.mk ["https://example.test/a"] [] [] [])).to_crawl
      = (DBState.mk ["https://example.test/a"] [] [] []).to_crawl.filter
          (fun x => x != "https://example.test/a") :=
  C4_amended env4 "example.test" (DBState.mk ["https://example.test/a"] [] [] [])
    "https://example.test/a" [] rfl rfl rfl (by simp)

/-! ## C5: blocked URLs and de-duplication -/

def R5 : Url := "https://example.test/"

def B5 : Url := "https://example.test/b"

def C5url : Url := "https://example.test/c"

/-- Environment for C5: the root links to `/b` (denied by robots) and `/c`
(allowed); `/c` links back to `/b`. -/
def env5 : Env :=
  { netloc := fun u => if u = R5 ∨ u = B5 ∨ u = C5url then "example.test" else ""
    rawHtml := fun u => if u = R5 then "HS" else if u = C5url then "HC" else ""
    extract := fun h => if h = "HS" then [B5, C5url] else if h = "HC" then [B5] else []
    can_fetch := fun u => u != B5 }

/-- C5 counterexample: after two iterations `/b` has been recorded as
Blocked and is no longer pending; yet on the third iteration (crawling
`/c`, which links to `/b`) `/b` is re-enqueued into the pending queue —
the blocked set is never consulted at enqueue time — and, through the
rebound loop variable, `/b` even receives a Page record holding `/c`'s
html.  Both halves of the claim fail. -/
theorem C5_counterexample :
    ((B5, "blocked by robots.txt") ∈
      (crawl_iter env5 "example.test" 2 (seed_domain R5 emptyDB)).cannot_crawl ∧
     (crawl_iter env5 "example.test" 2 (seed_domain R5 emptyDB)).to_crawl = [C5url]) ∧
    (B5 ∈ (crawl_iter env5 "example.test" 3 (seed_domain R5 emptyDB)).to_crawl ∧
     (B5, "HC") ∈ (crawl_iter env5 "example.test" 3 (seed_domain R5 emptyDB)).pages) := by
  decide

/-- C5 amended: at the moment a dequeued URL is denied, it is removed from
the pending queue and a Blocked record is appended for it, and that
iteration leaves the visited set and the Page records unchanged; but a
blocked URL is NOT treated as visited for de-duplication — the blocked set
is never consulted when links are enqueued — so it can be re-enqueued when
rediscovered and can later receive a Page record (the counterexample). -/
theorem C5_amended (env : Env) (host : String) (s : DBState) (u : Url) (rest : List Url)
    (h1 : s.to_crawl = u :: rest) (h2 : env.can_fetch u = false) :
    (crawl_step env host s).cannot_crawl
      = s.cannot_crawl ++ [(u, "blocked by robots.txt")] ∧
    (crawl_step env host s).crawled_links = s.crawled_links ∧
    (crawl_step env host s).pages = s.pages ∧
    (crawl_step env host s).to_crawl = s.to_crawl.filter (fun x => x != u) := by
  rw [crawl_step_eq_cons h1, h2]
  simp only [Bool.false_eq_true, if_false]
  exact ⟨rfl, rfl, rfl, rfl⟩

/-- C5 amended, witnessed at a concrete input: dequeuing the denied `/b`
appends its Blocked record and touches neither visited set nor pages. -/
theorem C5_amended_witness :
    (crawl_step env5 "example.test" (DBState.mk [B5] [] [] [])).cannot_crawl
      = (DBState.mk [B5] [] [] [] : DBState).cannot_crawl
          ++ [(B5, "blocked by robots.txt")] ∧
    (crawl_step env5 "example.test" (DBState.mk [B5] [] [] [])).crawled_links
      = (DBState.mk [B5] [] [] [] : DBState).crawled_links ∧
    (crawl_step env5 "example.test" (DBState.mk [B5] [] [] [])).pages
      = (DBState.mk [B5] [] [] [] : DBState).pages ∧
    (crawl_step env5 "example.test" (DBState.mk [B5] [] [] [])).to_crawl
      = (DBState.mk [B5] [] [] [] : DBState).to_crawl.filter (fun x => x != B5) :=
  C5_amended env5 "example.test" (DBState.mk [B5] [] [] []) B5 [] rfl rfl

/-! ## C6: seeding idempotence -/

/-- Environment for C6: the crawler restarts on a PENDING domain whose root
has already been visited; the oracle allows everything. -/
def env6 : Env :=
  { netloc := fun _ => "example.test"
    rawHtml := fun _ => ""
    extract := fun _ => []
    can_fetch := fun _ => true }

/-- A recovered crawl state: the root of the domain is already visited (with
its page stored) and the pending queue is empty. -/
def s6 : DBState :=
  ⟨[], ["https://example.test/"], [("https://example.test/", "HD")], []⟩

/-- C6 counterexample: seeding is NOT idempotent.  `crawl_domain` calls
`add_url_to_crawl` unconditionally, so (i) on a state whose root is already
visited, seeding still inserts the root into the pending queue and the next
iteration fetches it again — an already-visited URL is re-fetched on
restart; and (ii) on a state whose root is already pending, seeding inserts
a duplicate pending document. -/
theorem C6_counterexample :
    (seed_domain "https://example.test/" s6).to_crawl = ["https://example.test/"] ∧
    "https://example.test/" ∈ s6.crawled_links ∧
    crawl_step_fetches env6 (seed_domain "https://example.test/" s6)
      = ["https://example.test/"] ∧
    (seed_domain "https://example.test/"
      (DBState.mk ["https://example.test/"] [] [] [])).to_crawl
      = ["https://example.test/", "https://example.test/"] := by
  decide

/-- C6 amended: seeding unconditionally appends the root URL to the pending
queue — it is not a no-op when the root is already pending or already
visited (a duplicate document is inserted, and a visited root is re-fetched
on restart; see the counterexample) — but the SET of pending URLs gains no
new member when the root is already pending, and all duplicate copies are
removed together at the first dequeue of that URL. -/
theorem C6_amended (d : Url) (s : DBState) :
    (seed_domain d s).to_crawl = s.to_crawl ++ [d] ∧
    (d ∈ s.to_crawl → ∀ x : Url, (x ∈ (seed_domain d s).to_crawl ↔ x ∈ s.to_crawl)) ∧
    (remove_url_to_crawl d (seed_domain d s)).to_crawl
      = (remove_url_to_crawl d s).to_crawl := by
  refine ⟨rfl, ?_, ?_⟩
  · intro hd x
    show x ∈ s.to_crawl ++ [d] ↔ x ∈ s.to_crawl
    constructor
    · intro hx
      rcases List.mem_append.1 hx with h | h
      · exact h
      · exact (List.mem_singleton.1 h) ▸ hd
    · intro hx
      exact List.mem_append.2 (Or.inl hx)
  · show (s.to_crawl ++ [d]).filter (fun x => x != d) = s.to_crawl.filter (fun x => x != d)
    simp [List.filter_append]

/-! ## C7: robots acquisition failures -/

/-- C7 counterexample: acquiring the policy resource is neither always
permissive nor never fatal.  An HTTP 403 on robots.txt makes the standard
library's parser set `disallow_all`, so the oracle DENIES every URL; and a
non-HTTP exception (e.g. connection refused) propagates out of `rp.read()`
and out of `crawl_domain`, aborting the domain crawl. -/
theorem C7_counterexample :
    oracle_allows (get_robots_for_url (RobotsFetch.httpError 403))
      "https://example.test/a" = some false ∧
    robots_is_error (get_robots_for_url (RobotsFetch.exn "connection refused")) = true ∧
    robots_is_error ((crawl_domain_setup (RobotsFetch.exn "connection refused")
      "https://example.test/" emptyDB).2) = true := by
  refine ⟨?_, rfl, rfl⟩
  rfl

/-- C7 amended: only an HTTP 4xx status other than 401 and 403 on the
policy resource yields a permissive allow-all oracle; a 401 or 403 yields a
deny-all oracle; and a non-HTTP exception while fetching the policy
resource propagates out of `crawl_domain` (fatal for the domain crawl). -/
theorem C7_amended (c : Nat) (u : Url) (msg : String)
    (h1 : 400 ≤ c) (h2 : c < 500) (h3 : c ≠ 401) (h4 : c ≠ 403) :
    oracle_allows (get_robots_for_url (RobotsFetch.httpError c)) u = some true ∧
    robots_is_error (get_robots_for_url (RobotsFetch.exn msg)) = true := by
  refine ⟨?_, rfl⟩
  have he : get_robots_for_url (RobotsFetch.httpError c)
      = if c = 401 ∨ c = 403 then Except.ok (fun _ => false)
        else if 400 ≤ c ∧ c < 500 then Except.ok (fun _ => true)
        else Except.ok (fun _ => false) := rfl
  rw [he, if_neg (by simp [h3, h4]), if_pos ⟨h1, h2⟩]
  rfl

/-- C7 amended, witnessed at status 404 (missing robots.txt): the oracle
allows everything, while a transport exception is fatal. -/
theorem C7_amended_witness :
    oracle_allows (get_robots_for_url (RobotsFetch.httpError 404))
      "https://example.test/a" = some true ∧
    robots_is_error (get_robots_for_url (RobotsFetch.exn "connection refused x")) = true :=
  C7_amended 404 "https://example.test/a" "connection refused x"
    (by decide) (by decide) (by decide) (by decide)

/-! ## C8: domain containment -/

theorem crawl_step_no_foreign (env : Env) (host : String) (s : DBState) (u : Url)
    (hu : u ∉ s.to_crawl) (hn : env.netloc u ≠ host) :
    u ∉ (crawl_step env host s).to_crawl := by
  cases htc : s.to_crawl with
  | nil =>
    rw [crawl_step_eq_nil htc]
    exact hu
  | cons u0 rest =>
    rw [crawl_step_eq_cons htc]
    have hrm : u ∉ (remove_url_to_crawl u0 s).to_crawl := by
      intro h
      exact hu (List.mem_of_mem_filter h)
    by_cases hcf : env.can_fetch u0
    · rw [if_pos hcf, process_url_to_crawl]
      intro hmem
      rcases enqueue_new_to_crawl_mem _ hmem with h | h
      · exact hrm h
      · have h2 : u ∈ (env.extract (env.rawHtml u0)).filter
            (fun l => env.netloc l == host) := mem_pySet h
        have h3 := List.mem_filter.1 h2
        exact hn (by simpa using h3.2)
    · rw [if_neg hcf]
      exact hrm

/-- C8 confirmed: a link whose host differs from the domain's host is never
enqueued.  Every URL the loop ever inserts into `to_crawl` passed the
filter `urlparse(url).netloc == host` of `get_all_links`, so a URL of a
different netloc (a foreign host, a subdomain, or a relative reference,
whose netloc is empty) that is not pending stays out of the pending queue
over any number of iterations. -/
theorem C8_confirmed (env : Env) (host : String) (s : DBState) (u : Url) (n : Nat)
    (hu : u ∉ s.to_crawl) (hn : env.netloc u ≠ host) :
    ((crawl_iter env host n s).to_crawl.contains u) = false := by
  have key : ∀ m : Nat, u ∉ (crawl_iter env host m s).to_crawl := by
    intro m
    induction m with
    | zero => exact hu
    | succ m ih => exact crawl_step_no_foreign env host _ u ih hn
  simpa using key n

/-- Environment for the C8 witness: the root page of `example.test` links
to the foreign `https://other.test/x` and to an in-domain page. -/
def env8 : Env :=
  { netloc := fun u => if u = "https://other.test/x" then "other.test" else "example.test"
    rawHtml := fun _ => "H"
    extract := fun h =>
      if h = "H" then ["https://other.test/x", "https://example.test/p"] else []
    can_fetch := fun _ => true }

/-- C8 confirmed, witnessed at a concrete input: crawling the root, which
links to `https://other.test/x`, never enqueues the foreign URL. -/
theorem C8_confirmed_witness :
    ((crawl_iter env8 "example.test" 1
        (DBState.mk ["https://example.test/"] [] [] [])).to_crawl.contains
      "https://other.test/x") = false :=
  C8_confirmed env8 "example.test" (DBState.mk ["https://example.test/"] [] [] [])
    "https://other.test/x" 1 (by decide) (by decide)

/-! ## C9: permission denial -/

/-- Environment for C9: the robots oracle denies every URL. -/
def env9 : Env :=
  { netloc := fun _ => "example.test"
    rawHtml := fun _ => ""
    extract := fun _ => []
    can_fetch := fun _ => false }

/-- C9 counterexample: a denied URL's Blocked record carries the reason
`"blocked by robots.txt"`, not `"policy-denied"` as the claim states: no
record with reason `"policy-denied"` is ever created. -/
theorem C9_counterexample :
    (crawl_step env9 "example.test"
      (seed_domain "https://example.test/" emptyDB)).cannot_crawl
      = [("https://example.test/", "blocked by robots.txt")] ∧
    ((crawl_step env9 "example.test"
      (seed_domain "https://example.test/" emptyDB)).cannot_crawl.contains
        ("https://example.test/", "policy-denied")) = false := by
  decide

/-- C9 amended: a dequeued URL the oracle denies is never fetched
(`get_all_links` is not called for it), a Blocked record is appended for it
carrying the non-empty reason `"blocked by robots.txt"` (not
`"policy-denied"`), and the loop continues with the remaining queue. -/
theorem C9_amended (env : Env) (host : String) (s : DBState) (u : Url) (rest : List Url)
    (h1 : s.to_crawl = u :: rest) (h2 : env.can_fetch u = false) :
    crawl_step_fetches env s = [] ∧
    (crawl_step env host s).cannot_crawl
      = s.cannot_crawl ++ [(u, "blocked by robots.txt")] ∧
    "blocked by robots.txt" ≠ "" ∧
    (crawl_step env host s).to_crawl = s.to_crawl.filter (fun x => x != u) := by
  refine ⟨?_, ?_, by decide, ?_⟩
  · rw [crawl_step_fetches_eq_cons h1, h2]
    simp
  · rw [crawl_step_eq_cons h1, h2]
    simp only [Bool.false_eq_true, if_false]
    rfl
  · rw [crawl_step_eq_cons h1, h2]
    simp only [Bool.false_eq_true, if_false]
    rfl

/-- C9 amended, witnessed at a concrete input: the denied root is not
fetched and gets its Blocked record with the robots.txt reason. -/
theorem C9_amended_witness :
    crawl_step_fetches env9 (seed_domain "https://example.test/" emptyDB) = [] ∧
    (crawl_step env9 "example.test"
      (seed_domain "https://example.test/" emptyDB)).cannot_crawl
      = (seed_domain "https://example.test/" emptyDB).cannot_crawl
          ++ [("https://example.test/", "blocked by robots.txt")] ∧
    "blocked by robots.txt" ≠ "" ∧
    (crawl_step env9 "example.test"
      (seed_domain "https://example.test/" emptyDB)).to_crawl
      = (seed_domain "https://example.test/" emptyDB).to_crawl.filter
          (fun x => x != "https://example.test/") :=
  C9_amended env9 "example.test" (seed_domain "https://example.test/" emptyDB)
    "https://example.test/" [] rfl rfl

/-! ## C10: get_html totality and in-band failures -/

/-- C10 confirmed: `get_html` is total — every fetch outcome yields a plain
string, never a propagated exception — and returns the decoded body when
the status's decimal rendering starts with "2" and the decode succeeded,
the in-band string `"Failed to get html, status: " + str(status)` on any
other status, and the in-band string `"-1: " + str(e)` when an exception
was raised (during the request, or during the utf-8 decode of a 2xx body);
failures are therefore indistinguishable in type from page content. -/
theorem C10_confirmed (st : Nat) (html msg : String) :
    (status_starts_2 st = true →
      get_html (FetchOutcome.response st (Except.ok html)) = html) ∧
    (status_starts_2 st = false →
      get_html (FetchOutcome.response st (Except.ok html))
        = "Failed to get html, status: " ++ Nat.repr st ∧
      get_html (FetchOutcome.response st (Except.error msg))
        = "Failed to get html, status: " ++ Nat.repr st) ∧
    get_html (FetchOutcome.exn msg) = "-1: " ++ msg ∧
    (status_starts_2 st = true →
      get_html (FetchOutcome.response st (Except.error msg)) = "-1: " ++ msg) := by
  refine ⟨?_, ?_, rfl, ?_⟩ <;> intro h <;> simp [get_html, h]

/-- C10 confirmed, witnessed at concrete outcomes: a 200 body comes back
verbatim, a 404 and an exception come back as in-band strings, and a 200
response whose body fails to decode comes back as a "-1: " string. -/
theorem C10_confirmed_witness :
    get_html (FetchOutcome.response 200 (Except.ok "BODY")) = "BODY" ∧
    get_html (FetchOutcome.response 404 (Except.ok "BODY"))
      = "Failed to get html, status: " ++ Nat.repr 404 ∧
    get_html (FetchOutcome.exn "timed out") = "-1: " ++ "timed out" ∧
    get_html (FetchOutcome.response 200 (Except.error "bad utf-8"))
      = "-1: " ++ "bad utf-8" :=
  ⟨(C10_confirmed 200 "BODY" "m").1 (by decide),
   ((C10_confirmed 404 "BODY" "m").2.1 (by decide)).1,
   (C10_confirmed 404 "BODY" "timed out").2.2.1,
   (C10_confirmed 200 "BODY" "bad utf-8").2.2.2 (by decide)⟩

end CoastCrawl
